import Mathlib

/-!
Verification of the generation-orchestration core of huobao-drama.

Shallow embedding of `pkg/video/chatfire_client.go` (Chatfire video client),
the OpenAI text-completion client (package `ai`), and the resilient
structured-output decoder described in the specification.  Network round
trips are modelled by an explicit `transport` function argument; a call to
the transport stands for one HTTP round trip, and the functions return the
number of round trips they performed together with the (unchanged) client
state, so that frame and call-count properties can be stated.
Deserialization by `json.Unmarshal` of an externally produced body is
modelled as the `Option`-valued parse outcome carried by the transport.
-/

/-! ## String helpers (counterparts of Go `strings` functions) -/

/-- Decides whether `pat` occurs as a contiguous substring of `s`,
the counterpart of Go `strings.Contains s pat` (on char lists). -/
def listContains (pat s : List Char) : Bool :=
  match s with
  | [] => pat.isEmpty
  | _ :: rest => pat.isPrefixOf s || listContains pat rest

/-- Counterpart of Go `strings.ReplaceAll` on char lists: replaces every
non-overlapping occurrence of `pat` (scanning left to right) by `rep`.
Fuel-structured; `fuel ≥ s.length` suffices for a nonempty `pat`. -/
def replaceList (fuel : Nat) (s pat rep : List Char) : List Char :=
  match fuel, s with
  | 0, _ => s
  | _, [] => []
  | fuel + 1, c :: rest =>
    if pat ≠ [] ∧ pat.isPrefixOf s then rep ++ replaceList fuel (s.drop pat.length) pat rep
    else c :: replaceList fuel rest pat rep

/-- Counterpart of Go `strings.ReplaceAll`. -/
def replaceStr (s pat rep : String) : String :=
  String.mk (replaceList s.data.length s.data pat.data rep.data)

/-- Simplified containment check used in statements. -/
def containsSub (s pat : String) : Bool := listContains pat.data s.data

/-! ## Data model of the Chatfire video client (chatfire_client.go) -/

/-- ChatfireClient from chatfire_client.go lines 14-21.  The `http.Client`
field is represented by the only datum configured on it, its timeout in
seconds (300 per `NewChatfireClient`). -/
structure ChatfireClient where
  BaseURL : String
  APIKey : String
  Model : String
  Endpoint : String
  QueryEndpoint : String
  HTTPClientTimeoutSeconds : Nat
deriving DecidableEq

/-- ChatfireRequest from chatfire_client.go lines 23-29. -/
structure ChatfireRequest where
  Model : String
  Prompt : String
  ImageURL : String
  Duration : Int
  Size : String
deriving DecidableEq

/-- ChatfireResponse from chatfire_client.go lines 31-35. -/
structure ChatfireResponse where
  TaskID : String
  Status : String
  Error : String
deriving DecidableEq

/-- ChatfireTaskResponse from chatfire_client.go lines 37-42. -/
structure ChatfireTaskResponse where
  TaskID : String
  Status : String
  VideoURL : String
  Error : String
deriving DecidableEq

/-- Modelled from the spec: the repository's `VideoResult` type (package
`pkg/video`) is not among the provided sources; its fields are exactly
those assigned in `GenerateVideo` and `GetTaskStatus` of
chatfire_client.go (normalized result record per spec section 6). -/
structure VideoResult where
  TaskID : String
  Status : String
  Completed : Bool
  VideoURL : String
  Error : String
  Duration : Int
deriving DecidableEq

/-- Modelled from the spec: the repository's `VideoOptions` configuration
bag (package `pkg/video`) is not among the provided sources; its fields are
those read in `GenerateVideo` (spec section 3, GenerationRequest options). -/
structure VideoOptions where
  Duration : Int
  AspectRatio : String
  Model : String
deriving DecidableEq

/-- Functional option over `VideoOptions`, counterpart of `VideoOption`. -/
def VideoOption : Type := VideoOptions → VideoOptions

/-- Defaults installed by GenerateVideo (chatfire_client.go lines 64-67). -/
def defaultVideoOptions : VideoOptions :=
  { Duration := 5, AspectRatio := "16:9", Model := "" }

/-- Application of the functional options in order over the defaults
(chatfire_client.go lines 69-71). -/
def applyOptions (opts : List VideoOption) : VideoOptions :=
  opts.foldl (fun o f => f o) defaultVideoOptions

/-- Request body construction of GenerateVideo (chatfire_client.go lines
73-84): the options' model overrides the client's default model when set. -/
def buildChatfireRequest (c : ChatfireClient) (imageURL prompt : String)
    (options : VideoOptions) : ChatfireRequest :=
  let model := if options.Model ≠ "" then options.Model else c.Model
  { Model := model, Prompt := prompt, ImageURL := imageURL,
    Duration := options.Duration, Size := options.AspectRatio }

/-- Result construction of GenerateVideo (chatfire_client.go lines
124-129): `Completed` is the status string compared against "completed"
and "succeeded". -/
def chatfireVideoResult (result : ChatfireResponse) (options : VideoOptions) : VideoResult :=
  { TaskID := result.TaskID
    Status := result.Status
    Completed := result.Status == "completed" || result.Status == "succeeded"
    VideoURL := ""
    Error := ""
    Duration := options.Duration }

/-- Result construction of GetTaskStatus (chatfire_client.go lines
168-181): the same status normalization, then the error string is copied
when non-empty, and a non-empty video_url forces `Completed := true`. -/
def chatfireTaskVideoResult (result : ChatfireTaskResponse) : VideoResult :=
  let videoResult : VideoResult :=
    { TaskID := result.TaskID
      Status := result.Status
      Completed := result.Status == "completed" || result.Status == "succeeded"
      VideoURL := ""
      Error := ""
      Duration := 0 }
  let videoResult :=
    if result.Error ≠ "" then { videoResult with Error := result.Error } else videoResult
  if result.VideoURL ≠ "" then
    { videoResult with VideoURL := result.VideoURL, Completed := true }
  else videoResult

/-- Query-path resolution of GetTaskStatus (chatfire_client.go lines
135-142): substitute a named placeholder, trying "\x7btaskId\x7d" first,
then "\x7btask_id\x7d"; with neither present, append "/" and the id. -/
def resolveQueryPath (queryEndpoint taskID : String) : String :=
  if containsSub queryEndpoint "{taskId}" then
    replaceStr queryEndpoint "{taskId}" taskID
  else if containsSub queryEndpoint "{task_id}" then
    replaceStr queryEndpoint "{task_id}" taskID
  else
    queryEndpoint ++ "/" ++ taskID

/-- Transport for the submit call: given the endpoint URL and the request
body, yields the HTTP status code, the raw response body, and the
`json.Unmarshal` outcome of that body as a `ChatfireResponse`. -/
def SubmitTransport : Type := String → ChatfireRequest → Nat × String × Option ChatfireResponse

/-- GenerateVideo (chatfire_client.go lines 63-132), with the single HTTP
round trip abstracted by `transport`.  Returns the Go `(result, err)` pair
as an `Except`, together with the client state after the call.  Statuses
200 (OK) and 201 (Created) are accepted; any other status yields the
"API error" message carrying the status code and the raw body; a response
with a non-empty error field yields the "chatfire error" message. -/
def generateVideoT (c : ChatfireClient) (imageURL prompt : String)
    (opts : List VideoOption) (transport : SubmitTransport) :
    Except String VideoResult × ChatfireClient :=
  let options := applyOptions opts
  let reqBody := buildChatfireRequest c imageURL prompt options
  let endpoint := c.BaseURL ++ c.Endpoint
  let (statusCode, body, parsed) := transport endpoint reqBody
  if statusCode ≠ 200 ∧ statusCode ≠ 201 then
    (Except.error ("API error (status " ++ toString statusCode ++ "): " ++ body), c)
  else
    match parsed with
    | none => (Except.error "parse response", c)
    | some result =>
      if result.Error ≠ "" then
        (Except.error ("chatfire error: " ++ result.Error), c)
      else
        (Except.ok (chatfireVideoResult result options), c)

/-- Transport for the status poll: given the resolved URL, yields the
`json.Unmarshal` outcome of the response body as a `ChatfireTaskResponse`
(GetTaskStatus never inspects the HTTP status code). -/
def PollTransport : Type := String → Option ChatfireTaskResponse

/-- GetTaskStatus (chatfire_client.go lines 134-184), with the single HTTP
round trip abstracted by `transport`.  Returns the Go `(result, err)` pair
as an `Except`, the number of provider round trips performed by this call,
and the client state after the call.  The function is stateless in the
task: it unconditionally builds the query URL and performs the round trip. -/
def getTaskStatusT (c : ChatfireClient) (taskID : String)
    (transport : PollTransport) :
    Except String VideoResult × Nat × ChatfireClient :=
  let queryPath := resolveQueryPath c.QueryEndpoint taskID
  let endpoint := c.BaseURL ++ queryPath
  match transport endpoint with
  | none => (Except.error "parse response", 1, c)
  | some result => (Except.ok (chatfireTaskVideoResult result), 1, c)

/-! ## Data model of the OpenAI text-completion client (package ai) -/

/-- OpenAIClient of the ai package.  The `http.Client` field is represented
by its configured timeout in seconds (600 per `NewOpenAIClient`). -/
structure OpenAIClient where
  BaseURL : String
  APIKey : String
  Model : String
  Endpoint : String
  HTTPClientTimeoutSeconds : Nat
deriving DecidableEq

/-- ChatMessage of the ai package. -/
structure ChatMessage where
  Role : String
  Content : String
deriving DecidableEq

/-- ChatCompletionRequest of the ai package; float64 sampling parameters
are modelled as rationals (no claim computes with them). -/
structure ChatCompletionRequest where
  Model : String
  Messages : List ChatMessage
  Temperature : Rat
  MaxTokens : Int
  TopP : Rat
  Stream : Bool
deriving DecidableEq

/-- Message part of a choice of ChatCompletionResponse. -/
structure ChatChoiceMessage where
  Role : String
  Content : String
deriving DecidableEq

/-- One element of the Choices list of ChatCompletionResponse. -/
structure ChatChoice where
  Index : Int
  Message : ChatChoiceMessage
  FinishReason : String
deriving DecidableEq

/-- Usage block of ChatCompletionResponse. -/
structure ChatUsage where
  PromptTokens : Int
  CompletionTokens : Int
  TotalTokens : Int
deriving DecidableEq

/-- ChatCompletionResponse of the ai package. -/
structure ChatCompletionResponse where
  ID : String
  Object : String
  Created : Int
  Model : String
  Choices : List ChatChoice
  Usage : ChatUsage
deriving DecidableEq

/-- Error detail of ErrorResponse; the Go field named `Type` is rendered
`ErrorType` (Type is not a legal Lean field name). -/
structure ErrorDetail where
  Message : String
  ErrorType : String
  Code : String
deriving DecidableEq

/-- ErrorResponse of the ai package (shape of a non-200 error body). -/
structure ErrorResponse where
  Error : ErrorDetail
deriving DecidableEq

/-- Transport for a chat-completion call: given the URL and the request,
yields the HTTP status code, the raw body, and the `json.Unmarshal`
outcomes of that body as an `ErrorResponse` and as a
`ChatCompletionResponse`. -/
def ChatTransport : Type :=
  String → ChatCompletionRequest → Nat × String × Option ErrorResponse × Option ChatCompletionResponse

/-- The sendChatRequest method of OpenAIClient, with the single HTTP round
trip abstracted by `transport`.  Only status 200 is accepted.  On a
non-200 status the body is first tried as an ErrorResponse: when that
parse succeeds the returned error carries only the parsed error message;
when it fails the returned error carries the status code and the raw body.
On a 200 status whose body does not parse as a ChatCompletionResponse the
error carries a 200-character body preview. -/
def sendChatRequestT (c : OpenAIClient) (req : ChatCompletionRequest)
    (transport : ChatTransport) :
    Except String ChatCompletionResponse × OpenAIClient :=
  let url := c.BaseURL ++ c.Endpoint
  let (statusCode, body, parsedErr, parsedChat) := transport url req
  if statusCode ≠ 200 then
    match parsedErr with
    | none => (Except.error ("API error (status " ++ toString statusCode ++ "): " ++ body), c)
    | some errResp => (Except.error ("API error: " ++ errResp.Error.Message), c)
  else
    match parsedChat with
    | none =>
      (Except.error ("failed to unmarshal response, body preview: "
        ++ String.mk (body.data.take 200)), c)
    | some chatResp => (Except.ok chatResp, c)

/-- The ChatCompletion method: builds the request from the client's default
model and the messages (other fields at their Go zero values), applies the
functional options in order, and delegates to sendChatRequest. -/
def chatCompletionT (c : OpenAIClient) (messages : List ChatMessage)
    (options : List (ChatCompletionRequest → ChatCompletionRequest))
    (transport : ChatTransport) :
    Except String ChatCompletionResponse × OpenAIClient :=
  let req := options.foldl (fun r f => f r)
    { Model := c.Model, Messages := messages,
      Temperature := 0, MaxTokens := 0, TopP := 0, Stream := false }
  sendChatRequestT c req transport

/-- Handling of the ChatCompletion outcome by GenerateText: an error is
passed through with an empty string (the Go `return "", err`); an empty
choices list yields the "no response from API" error with an empty string;
otherwise the first choice's message content is returned with no error. -/
def generateTextHandle (res : Except String ChatCompletionResponse × OpenAIClient) :
    (String × Option String) × OpenAIClient :=
  match res with
  | (Except.error e, cAfter) => (("", some e), cAfter)
  | (Except.ok resp, cAfter) =>
    match resp.Choices with
    | [] => (("", some "no response from API"), cAfter)
    | choice :: _ => ((choice.Message.Content, none), cAfter)

/-- The GenerateText method: assembles the optional system message and the
user message, calls ChatCompletion, and pairs the Go `(string, error)`
return as `String × Option String`. -/
def generateTextT (c : OpenAIClient) (prompt systemPrompt : String)
    (options : List (ChatCompletionRequest → ChatCompletionRequest))
    (transport : ChatTransport) :
    (String × Option String) × OpenAIClient :=
  let messages :=
    (if systemPrompt ≠ "" then [{ Role := "system", Content := systemPrompt }] else [])
      ++ [({ Role := "user", Content := prompt } : ChatMessage)]
  generateTextHandle (chatCompletionT c messages options transport)

/-! ## Resilient structured-output decoder (spec section 4.2) -/

/-- Opening brace character. -/
def braceOpen : Char := Char.ofNat 123

/-- Closing brace character. -/
def braceClose : Char := Char.ofNat 125

/-- Opening bracket character. -/
def brackOpen : Char := Char.ofNat 91

/-- Closing bracket character. -/
def brackClose : Char := Char.ofNat 93

/-- Double-quote character. -/
def dquote : Char := Char.ofNat 34

/-- Backslash character. -/
def bslash : Char := Char.ofNat 92

/-- JSON whitespace. -/
def isWsChar (c : Char) : Bool := c = ' ' || c = '\n' || c = '\t' || c = '\r'

/-- Drops leading JSON whitespace. -/
def skipWs (cs : List Char) : List Char := cs.dropWhile isWsChar

/-- Trims whitespace from both ends. -/
def trimW (cs : List Char) : List Char :=
  ((cs.dropWhile isWsChar).reverse.dropWhile isWsChar).reverse

/-- JSON values recovered by the decoder; numbers are modelled as
integers (no claim depends on fractional syntax). -/
inductive Json where
  | null : Json
  | bool (b : Bool) : Json
  | num (n : Int) : Json
  | str (s : String) : Json
  | arr (elems : List Json) : Json
  | obj (members : List (String × Json)) : Json

/-- Body of a JSON string literal, the opening quote already consumed:
reads up to the closing quote, resolving simple escapes. -/
def parseStringBody : List Char → Option (String × List Char)
  | [] => none
  | c :: rest =>
    if c = dquote then some ("", rest)
    else if c = bslash then
      match rest with
      | [] => none
      | e :: rest2 =>
        let ec := if e = 'n' then '\n' else if e = 't' then '\t' else if e = 'r' then '\r' else e
        match parseStringBody rest2 with
        | some (s, rem) => some (String.mk (ec :: s.data), rem)
        | none => none
    else
      match parseStringBody rest with
      | some (s, rem) => some (String.mk (c :: s.data), rem)
      | none => none

/-- Numeric value of a digit run. -/
def digitsToNat (ds : List Char) : Nat :=
  ds.foldl (fun n c => n * 10 + (c.toNat - 48)) 0

/-- JSON integer literal: optional minus sign, then at least one digit. -/
def parseNumberTok (cs : List Char) : Option (Int × List Char) :=
  match cs with
  | [] => none
  | c :: rest =>
    if c = '-' then
      let (ds, rem) := rest.span Char.isDigit
      if ds.isEmpty then none else some (-(Int.ofNat (digitsToNat ds)), rem)
    else
      let (ds, rem) := cs.span Char.isDigit
      if ds.isEmpty then none else some (Int.ofNat (digitsToNat ds), rem)

mutual

/-- Recursive-descent JSON value parser, fuel-bounded; a fuel of
`input length + 1` always suffices. -/
def parseValue : Nat → List Char → Option (Json × List Char)
  | 0, _ => none
  | Nat.succ fuel, cs =>
    match skipWs cs with
    | [] => none
    | c :: rest =>
      if c = dquote then
        match parseStringBody rest with
        | some (s, rem) => some (Json.str s, rem)
        | none => none
      else if c = 'n' then
        if [ 'u', 'l', 'l'].isPrefixOf rest then some (Json.null, rest.drop 3) else none
      else if c = 't' then
        if [ 'r', 'u', 'e'].isPrefixOf rest then some (Json.bool true, rest.drop 3) else none
      else if c = 'f' then
        if [ 'a', 'l', 's', 'e'].isPrefixOf rest then some (Json.bool false, rest.drop 4) else none
      else if c = brackOpen then
        match skipWs rest with
        | [] => none
        | d :: rest2 =>
          if d = brackClose then some (Json.arr [], rest2)
          else
            match parseElems fuel (d :: rest2) with
            | some (vs, rem) => some (Json.arr vs, rem)
            | none => none
      else if c = braceOpen then
        match skipWs rest with
        | [] => none
        | d :: rest2 =>
          if d = braceClose then some (Json.obj [], rest2)
          else
            match parseMembers fuel (d :: rest2) with
            | some (ms, rem) => some (Json.obj ms, rem)
            | none => none
      else
        match parseNumberTok (c :: rest) with
        | some (n, rem) => some (Json.num n, rem)
        | none => none

/-- Non-empty comma-separated array elements, up to the closing bracket. -/
def parseElems : Nat → List Char → Option (List Json × List Char)
  | 0, _ => none
  | Nat.succ fuel, cs =>
    match parseValue fuel cs with
    | none => none
    | some (v, rem) =>
      match skipWs rem with
      | [] => none
      | c :: rest =>
        if c = ',' then
          match parseElems fuel rest with
          | some (vs, rem2) => some (v :: vs, rem2)
          | none => none
        else if c = brackClose then some ([v], rest)
        else none

/-- Non-empty comma-separated object members, up to the closing brace. -/
def parseMembers : Nat → List Char → Option (List (String × Json) × List Char)
  | 0, _ => none
  | Nat.succ fuel, cs =>
    match skipWs cs with
    | [] => none
    | c :: rest =>
      if c = dquote then
        match parseStringBody rest with
        | none => none
        | some (k, rem) =>
          match skipWs rem with
          | [] => none
          | c2 :: rest2 =>
            if c2 = ':' then
              match parseValue fuel rest2 with
              | none => none
              | some (v, rem2) =>
                match skipWs rem2 with
                | [] => none
                | c3 :: rest3 =>
                  if c3 = ',' then
                    match parseMembers fuel rest3 with
                    | some (ms, rem3) => some ((k, v) :: ms, rem3)
                    | none => none
                  else if c3 = braceClose then some ([(k, v)], rest3)
                  else none
            else none
      else none

end

/-- Full parse of a char list: one JSON value followed only by whitespace. -/
def fullParseL (cs : List Char) : Option Json :=
  match parseValue (cs.length + 1) cs with
  | some (v, rem) => if skipWs rem = [] then some v else none
  | none => none

/-- Full parse of a string as JSON (the direct parse of the decoder). -/
def fullParse (s : String) : Option Json := fullParseL s.data

/-- Markdown code-fence marker. -/
def fenceChars : List Char := "```".data

/-- Strips a single leading/trailing markdown code fence (with optional
language tag on the opening line), per spec section 4.2 step 1. -/
def stripFence (cs : List Char) : List Char :=
  if fenceChars.isPrefixOf cs then
    let afterOpen := cs.drop 3
    let afterTag := (afterOpen.dropWhile (fun c => c != '\n')).drop 1
    let t := trimW afterTag
    if fenceChars.isSuffixOf t then trimW (t.take (t.length - 3)) else t
  else cs

/-- Substring from the first occurrence of `o` through the last occurrence
of `c` (spec section 4.2 step 3); none when no `o` is present, and the
whole tail from the first `o` when no `c` follows it (the truncation
case handed to the repair step). -/
def extractBetween (o c : Char) (cs : List Char) : Option (List Char) :=
  match cs.dropWhile (fun x => x != o) with
  | [] => none
  | y :: ys =>
    match ((y :: ys).reverse.dropWhile (fun x => x != c)).reverse with
    | [] => some (y :: ys)
    | z :: zs => some (z :: zs)

/-- Closing tokens still owed by `cs`, innermost first: scans the text,
pushing the matching closer at each opening brace/bracket and popping at a
matching closer (spec section 4.2 step 4, LIFO repair order). -/
def closerStack (cs : List Char) : List Char :=
  cs.foldl
    (fun stack c =>
      if c = braceOpen then braceClose :: stack
      else if c = brackOpen then brackClose :: stack
      else if c = braceClose || c = brackClose then
        match stack with
        | top :: rest => if top = c then rest else stack
        | [] => stack
      else stack)
    []

/-- Extraction attempt between `o` and `c` with best-effort truncation
repair: parse the substring; if that fails and closers are owed, append
them (LIFO) and retry. -/
def tryParseSub (o c : Char) (t : List Char) : Option Json :=
  match extractBetween o c t with
  | none => none
  | some sub =>
    match fullParseL sub with
    | some v => some v
    | none =>
      let closers := closerStack sub
      if closers.isEmpty then none
      else fullParseL (sub ++ closers)

/-- Modelled from the spec: the resilient structured-output decoder
(spec section 4.2) is not among the provided sources; this is its
algorithm as specified — strip a single code fence, attempt a direct
parse, else extract first-brace..last-brace (then first-bracket..
last-bracket) and parse, repairing unbalanced truncation by appending the
owed closers in LIFO order, else fail with a bounded (200-char) preview. -/
def decode (raw : String) : Except String Json :=
  let t := stripFence (trimW raw.data)
  match fullParseL t with
  | some v => Except.ok v
  | none =>
    match tryParseSub braceOpen braceClose t with
    | some v => Except.ok v
    | none =>
      match tryParseSub brackOpen brackClose t with
      | some v => Except.ok v
      | none => Except.error ("DecodeError: " ++ String.mk (t.take 200))

/-! ## Concrete instances used by witnesses and counterexamples -/

/-- Client used in the C2 counterexample. -/
def c2Client : ChatfireClient :=
  ⟨"https://api.example.com", "key", "video-model", "/video/generations",
    "/v1/video/task/{taskId}", 300⟩

/-- Provider response used in the C2 counterexample: a terminal
(completed, url populated) task state. -/
def c2Terminal : ChatfireTaskResponse := ⟨"t1", "completed", "https://x/vid.mp4", ""⟩

/-- Body used in the C5 counterexample: a non-200 response body that
parses as an ErrorResponse with message "boom". -/
def c5Body : String := "\x7b\"error\":\x7b\"message\":\"boom\"\x7d\x7d"

/-- Poll response used in the C6 counterexample: transport-successful,
parseable, with both a terminal-looking status and a non-empty error. -/
def c6Resp : ChatfireTaskResponse := ⟨"t1", "completed", "", "boom"⟩

/-- Raw input of the C7 counterexample: prose containing an opening brace,
followed by the valid JSON object \x7b"a":1\x7d. -/
def c7Raw : String := "x\x7by \x7b\"a\":1\x7d"

/-! ## Theorems for the claims -/

/-! ## Claim C1 -/

/-- Claim C1: for every status-poll response whose video_url field is a
non-empty string, GetTaskStatus reports the task as succeeded
(Completed = true) with that URL as the result, regardless of the status
string. -/
theorem c1_video_url_authoritative (c : ChatfireClient) (taskID : String)
    (t : ChatfireTaskResponse) (h : t.VideoURL ≠ "") :
    (getTaskStatusT c taskID (fun _ => some t)).1 = Except.ok (chatfireTaskVideoResult t)
    ∧ (chatfireTaskVideoResult t).Completed = true
    ∧ (chatfireTaskVideoResult t).VideoURL = t.VideoURL := by
  refine ⟨rfl, ?_, ?_⟩ <;>
    · unfold chatfireTaskVideoResult
      split <;> simp [h]

/-- Witness for c1_video_url_authoritative at a concrete non-terminal
status string with a populated video_url. -/
theorem c1_witness :
    (getTaskStatusT ⟨"https://api.example.com", "k", "m", "/video/generations", "/v1/video/task/{taskId}", 300⟩
        "t1" (fun _ => some ⟨"t1", "running", "https://x/vid.mp4", ""⟩)).1
      = Except.ok (chatfireTaskVideoResult ⟨"t1", "running", "https://x/vid.mp4", ""⟩)
    ∧ (chatfireTaskVideoResult ⟨"t1", "running", "https://x/vid.mp4", ""⟩).Completed = true
    ∧ (chatfireTaskVideoResult ⟨"t1", "running", "https://x/vid.mp4", ""⟩).VideoURL = "https://x/vid.mp4" :=
  c1_video_url_authoritative _ "t1" _ (by decide)

/-! ## Claim C2 -/

/-- Counterexample to claim C2: polling task "t1" returns a terminal state
(Completed = true with a result URL), yet a further identical call to
GetTaskStatus still performs one provider round trip (the call count of
every invocation is 1, never 0) — there is no cached terminal state. -/
theorem c2_counterexample :
    ((getTaskStatusT c2Client "t1" (fun _ => some c2Terminal)).1
        = Except.ok (chatfireTaskVideoResult c2Terminal)
      ∧ (chatfireTaskVideoResult c2Terminal).Completed = true)
    ∧ (getTaskStatusT c2Client "t1" (fun _ => some c2Terminal)).2.1 = 1 := by
  exact ⟨⟨rfl, by decide⟩, rfl⟩

/-- Amended claim C2: every call to GetTaskStatus performs exactly one
provider round trip, regardless of the task's state; the client keeps no
cache of terminal states. -/
theorem c2_always_one_round_trip (c : ChatfireClient) (taskID : String)
    (transport : PollTransport) :
    (getTaskStatusT c taskID transport).2.1 = 1 := by
  cases h : transport (c.BaseURL ++ resolveQueryPath c.QueryEndpoint taskID) <;>
    simp [getTaskStatusT, h]

/-! ## Claim C3 -/

/-- Claim C3: path resolution substitutes the id for the placeholder
"\x7btaskId\x7d" when present, otherwise for "\x7btask_id\x7d" when
present, and with neither placeholder appends the id as a trailing path
segment after "/"; on the claim's examples, template "/v1/task/\x7btaskId\x7d"
with id "abc123" yields "/v1/task/abc123" and template "/trailing" yields
"/trailing/abc123". -/
theorem c3_query_path_resolution (tpl taskID : String) :
    (containsSub tpl "{taskId}" = true →
      resolveQueryPath tpl taskID = replaceStr tpl "{taskId}" taskID)
    ∧ (containsSub tpl "{taskId}" = false → containsSub tpl "{task_id}" = true →
      resolveQueryPath tpl taskID = replaceStr tpl "{task_id}" taskID)
    ∧ (containsSub tpl "{taskId}" = false → containsSub tpl "{task_id}" = false →
      resolveQueryPath tpl taskID = tpl ++ "/" ++ taskID)
    ∧ resolveQueryPath "/v1/task/{taskId}" "abc123" = "/v1/task/abc123"
    ∧ resolveQueryPath "/trailing" "abc123" = "/trailing/abc123" := by
  refine ⟨?_, ?_, ?_, by decide, by decide⟩ <;>
    · intros h1
      try intros h2
      simp_all [resolveQueryPath]

/-- Witness for c3_query_path_resolution: both placeholder forms and the
no-placeholder form at concrete templates and id "abc123". -/
theorem c3_witness :
    resolveQueryPath "/v1/task/{taskId}" "abc123" = replaceStr "/v1/task/{taskId}" "{taskId}" "abc123"
    ∧ resolveQueryPath "/v2/{task_id}/status" "abc123" = replaceStr "/v2/{task_id}/status" "{task_id}" "abc123"
    ∧ resolveQueryPath "/trailing" "abc123" = "/trailing" ++ "/" ++ "abc123" :=
  ⟨(c3_query_path_resolution "/v1/task/{taskId}" "abc123").1 (by decide),
   (c3_query_path_resolution "/v2/{task_id}/status" "abc123").2.1 (by decide) (by decide),
   (c3_query_path_resolution "/trailing" "abc123").2.2.1 (by decide) (by decide)⟩

/-! ## Claim C4 -/

/-- Claim C4: the status strings "completed" and "succeeded" each
normalize to succeeded (Completed = true) and, absent a populated video
URL, every other status string leaves the task not succeeded; the submit
path (GenerateVideo) and the poll path (GetTaskStatus) apply the identical
normalization. -/
theorem c4_status_normalization (r : ChatfireResponse) (t : ChatfireTaskResponse)
    (options : VideoOptions) :
    ((chatfireVideoResult r options).Completed = true ↔
      (r.Status = "completed" ∨ r.Status = "succeeded"))
    ∧ (t.VideoURL = "" →
      ((chatfireTaskVideoResult t).Completed = true ↔
        (t.Status = "completed" ∨ t.Status = "succeeded")))
    ∧ (t.VideoURL = "" → r.Status = t.Status →
      (chatfireVideoResult r options).Completed = (chatfireTaskVideoResult t).Completed) := by
  refine ⟨?_, ?_, ?_⟩
  · simp [chatfireVideoResult]
  · intro hURL
    unfold chatfireTaskVideoResult
    simp only [hURL]
    split
    · simp_all
    · split <;> simp
  · intro hURL hStatus
    unfold chatfireVideoResult chatfireTaskVideoResult
    simp only [hURL, hStatus]
    split
    · simp_all
    · split <;> simp

/-- Witness for c4_status_normalization at concrete responses: submit
status "completed" is normalized to succeeded; poll status "running" with
no video URL is not succeeded. -/
theorem c4_witness :
    ((chatfireVideoResult ⟨"t1", "completed", ""⟩ defaultVideoOptions).Completed = true ↔
      ((("completed" : String) = "completed") ∨ (("completed" : String) = "succeeded")))
    ∧ ((chatfireTaskVideoResult ⟨"t1", "running", "", ""⟩).Completed = true ↔
      ((("running" : String) = "completed") ∨ (("running" : String) = "succeeded"))) :=
  ⟨(c4_status_normalization ⟨"t1", "completed", ""⟩ ⟨"t1", "running", "", ""⟩ defaultVideoOptions).1,
   (c4_status_normalization ⟨"t1", "completed", ""⟩ ⟨"t1", "running", "", ""⟩ defaultVideoOptions).2.1 rfl⟩

/-! ## Claim C5 -/

/-- Counterexample to claim C5: on HTTP status 500 with a body that parses
as an ErrorResponse, sendChatRequest returns the error "API error: boom",
which carries neither the HTTP status code 500 nor any copy of the
response body — not "the HTTP status code and a truncated copy of the raw
response body" as claimed. -/
theorem c5_counterexample :
    (sendChatRequestT ⟨"https://api.example.com", "k", "gpt", "/v1/chat/completions", 600⟩
        ⟨"gpt", [], 0, 0, 0, false⟩
        (fun _ _ => (500, c5Body, some ⟨⟨"boom", "", ""⟩⟩, none))).1
      = Except.error "API error: boom"
    ∧ containsSub "API error: boom" "500" = false
    ∧ containsSub "API error: boom" c5Body = false := by
  refine ⟨rfl, by decide, by decide⟩

/-- Amended claim C5: a non-2xx response never yields a successful result;
the video submit error carries the status code and the full (untruncated)
raw body; the text-completion error carries the status code and the full
raw body exactly when the body does not also parse as an ErrorResponse —
when it does, only the parsed provider error message is carried. -/
theorem c5_non_2xx_yields_error (c : ChatfireClient) (imageURL prompt : String)
    (opts : List VideoOption) (oc : OpenAIClient) (req : ChatCompletionRequest)
    (statusCode : Nat) (body : String) (parsed : Option ChatfireResponse)
    (pErr : Option ErrorResponse) (pChat : Option ChatCompletionResponse)
    (hs : statusCode ≠ 200) :
    (statusCode ≠ 201 →
      (generateVideoT c imageURL prompt opts (fun _ _ => (statusCode, body, parsed))).1 =
        Except.error ("API error (status " ++ toString statusCode ++ "): " ++ body))
    ∧ (pErr = none →
      (sendChatRequestT oc req (fun _ _ => (statusCode, body, pErr, pChat))).1 =
        Except.error ("API error (status " ++ toString statusCode ++ "): " ++ body))
    ∧ (∀ e, pErr = some e →
      (sendChatRequestT oc req (fun _ _ => (statusCode, body, pErr, pChat))).1 =
        Except.error ("API error: " ++ e.Error.Message))
    ∧ (∀ resp, (sendChatRequestT oc req (fun _ _ => (statusCode, body, pErr, pChat))).1 ≠
        Except.ok resp) := by
  refine ⟨?_, ?_, ?_, ?_⟩
  · intro h201
    simp [generateVideoT, hs, h201]
  · intro hE
    simp [sendChatRequestT, hs, hE]
  · intro e hE
    simp [sendChatRequestT, hs, hE]
  · intro resp
    cases hE : pErr <;> simp [sendChatRequestT, hs, hE]

/-- Witness for c5_non_2xx_yields_error at status 500 with an unparseable
error body. -/
theorem c5_witness :
    (generateVideoT ⟨"https://api.example.com", "k", "m", "/video/generations", "/v1/video/task/{taskId}", 300⟩
        "img" "pr" [] (fun _ _ => (500, "oops", none))).1 =
      Except.error ("API error (status " ++ toString (500 : Nat) ++ "): " ++ "oops")
    ∧ (sendChatRequestT ⟨"https://api.example.com", "k", "gpt", "/v1/chat/completions", 600⟩
        ⟨"gpt", [], 0, 0, 0, false⟩ (fun _ _ => (500, "oops", none, none))).1 =
      Except.error ("API error (status " ++ toString (500 : Nat) ++ "): " ++ "oops") :=
  ⟨(c5_non_2xx_yields_error _ "img" "pr" []
      ⟨"https://api.example.com", "k", "gpt", "/v1/chat/completions", 600⟩
      ⟨"gpt", [], 0, 0, 0, false⟩ 500 "oops" none none none (by decide)).1 (by decide),
   (c5_non_2xx_yields_error
      ⟨"https://api.example.com", "k", "m", "/video/generations", "/v1/video/task/{taskId}", 300⟩
      "img" "pr" [] _ _ 500 "oops" none none none (by decide)).2.1 rfl⟩

/-! ## Claim C6 -/

/-- Counterexample to claim C6: a 2xx parseable poll response whose error
field is "boom" and whose status is "completed" is reported by
GetTaskStatus with Completed = true — the task is reported succeeded, not
failed, while carrying the error string. -/
theorem c6_counterexample :
    (getTaskStatusT c2Client "t1" (fun _ => some c6Resp)).1
      = Except.ok (chatfireTaskVideoResult c6Resp)
    ∧ (chatfireTaskVideoResult c6Resp).Error = "boom"
    ∧ (chatfireTaskVideoResult c6Resp).Completed = true := by
  refine ⟨rfl, by decide, by decide⟩

/-- Amended claim C6: GenerateVideo surfaces a non-empty error field of a
2xx parseable response as an error and returns no task; GetTaskStatus
returns a non-error result that carries the error string in its Error
field but is not forced to failed — Completed is still true exactly when
the status string normalizes to succeeded or the video URL is non-empty. -/
theorem c6_error_field_handling (c : ChatfireClient) (imageURL prompt : String)
    (opts : List VideoOption) (body : String) (r : ChatfireResponse)
    (t : ChatfireTaskResponse) (hr : r.Error ≠ "") (ht : t.Error ≠ "") :
    (generateVideoT c imageURL prompt opts (fun _ _ => (200, body, some r))).1 =
      Except.error ("chatfire error: " ++ r.Error)
    ∧ (chatfireTaskVideoResult t).Error = t.Error
    ∧ (chatfireTaskVideoResult t).Completed =
        (t.Status == "completed" || t.Status == "succeeded" || t.VideoURL != "") := by
  refine ⟨?_, ?_, ?_⟩
  · simp [generateVideoT, hr]
  · unfold chatfireTaskVideoResult
    simp only [if_pos ht]
    split <;> simp
  · unfold chatfireTaskVideoResult
    simp only [if_pos ht]
    split <;> simp_all [bne_iff_ne]

/-- Witness for c6_error_field_handling at concrete responses with error
"boom". -/
theorem c6_witness :
    (generateVideoT c2Client "img" "pr" []
        (fun _ _ => (200, "body", some ⟨"t1", "queued", "boom"⟩))).1 =
      Except.error ("chatfire error: " ++ "boom")
    ∧ (chatfireTaskVideoResult ⟨"t1", "queued", "", "boom"⟩).Error = "boom"
    ∧ (chatfireTaskVideoResult ⟨"t1", "queued", "", "boom"⟩).Completed =
        (("queued" : String) == "completed" || ("queued" : String) == "succeeded"
          || ("" : String) != "") :=
  c6_error_field_handling c2Client "img" "pr" [] "body"
    ⟨"t1", "queued", "boom"⟩ ⟨"t1", "queued", "", "boom"⟩ (by decide) (by decide)

/-! ## Claim C8 -/

/-- Claim C8: with no caller-supplied options, GenerateVideo submits the
request with Duration = 5 and Size (aspect ratio) = "16:9"; an option
setting those fields overrides the defaults. -/
theorem c8_video_defaults (c : ChatfireClient) (imageURL prompt : String)
    (d : Int) (a : String) :
    (buildChatfireRequest c imageURL prompt (applyOptions [])).Duration = 5
    ∧ (buildChatfireRequest c imageURL prompt (applyOptions [])).Size = "16:9"
    ∧ (buildChatfireRequest c imageURL prompt
        (applyOptions [fun o => { o with Duration := d, AspectRatio := a }])).Duration = d
    ∧ (buildChatfireRequest c imageURL prompt
        (applyOptions [fun o => { o with Duration := d, AspectRatio := a }])).Size = a :=
  ⟨rfl, rfl, rfl, rfl⟩

/-! ## Claim C9 -/

/-- Helper: GenerateVideo returns its client state unchanged. -/
theorem generateVideoT_frame (c : ChatfireClient) (imageURL prompt : String)
    (opts : List VideoOption) (tr : SubmitTransport) :
    (generateVideoT c imageURL prompt opts tr).2 = c := by
  rcases h : tr (c.BaseURL ++ c.Endpoint)
      (buildChatfireRequest c imageURL prompt (applyOptions opts)) with ⟨s, b, p⟩
  cases p <;> simp [generateVideoT, h] <;> split_ifs <;> simp

/-- Helper: GetTaskStatus returns its client state unchanged. -/
theorem getTaskStatusT_frame (c : ChatfireClient) (taskID : String)
    (tr : PollTransport) :
    (getTaskStatusT c taskID tr).2.2 = c := by
  cases h : tr (c.BaseURL ++ resolveQueryPath c.QueryEndpoint taskID) <;>
    simp [getTaskStatusT, h]

/-- Helper: sendChatRequest returns its client state unchanged. -/
theorem sendChatRequestT_frame (oc : OpenAIClient) (req : ChatCompletionRequest)
    (tr : ChatTransport) :
    (sendChatRequestT oc req tr).2 = oc := by
  rcases h : tr (oc.BaseURL ++ oc.Endpoint) req with ⟨s, b, pe, pc⟩
  cases pe <;> cases pc <;> simp [sendChatRequestT, h] <;> split_ifs <;> simp

/-- Helper: ChatCompletion returns its client state unchanged. -/
theorem chatCompletionT_frame (oc : OpenAIClient) (messages : List ChatMessage)
    (ropts : List (ChatCompletionRequest → ChatCompletionRequest))
    (tr : ChatTransport) :
    (chatCompletionT oc messages ropts tr).2 = oc := by
  unfold chatCompletionT
  exact sendChatRequestT_frame oc _ tr

/-- Helper: the GenerateText outcome handling passes the client state of
the ChatCompletion result through unchanged. -/
theorem generateTextHandle_frame (res : Except String ChatCompletionResponse × OpenAIClient) :
    (generateTextHandle res).2 = res.2 := by
  obtain ⟨r, cAfter⟩ := res
  cases r with
  | error e => rfl
  | ok resp =>
    obtain ⟨i1, o1, cr1, m1, choices, u1⟩ := resp
    cases choices <;> rfl

/-- Helper: GenerateText returns its client state unchanged. -/
theorem generateTextT_frame (oc : OpenAIClient) (prompt systemPrompt : String)
    (ropts : List (ChatCompletionRequest → ChatCompletionRequest))
    (tr : ChatTransport) :
    (generateTextT oc prompt systemPrompt ropts tr).2 = oc := by
  unfold generateTextT
  rw [generateTextHandle_frame]
  exact chatCompletionT_frame oc _ ropts tr

/-- Claim C9: no client operation mutates the endpoint configuration —
GenerateVideo, GetTaskStatus, sendChatRequest, ChatCompletion and
GenerateText all return the client state they were given, every field
unchanged. -/
theorem c9_client_config_immutable (c : ChatfireClient) (imageURL prompt : String)
    (opts : List VideoOption) (tr1 : SubmitTransport) (taskID : String)
    (tr2 : PollTransport) (oc : OpenAIClient) (req : ChatCompletionRequest)
    (tr3 : ChatTransport) (messages : List ChatMessage)
    (ropts : List (ChatCompletionRequest → ChatCompletionRequest))
    (userPrompt systemPrompt : String) :
    (generateVideoT c imageURL prompt opts tr1).2 = c
    ∧ (getTaskStatusT c taskID tr2).2.2 = c
    ∧ (sendChatRequestT oc req tr3).2 = oc
    ∧ (chatCompletionT oc messages ropts tr3).2 = oc
    ∧ (generateTextT oc userPrompt systemPrompt ropts tr3).2 = oc :=
  ⟨generateVideoT_frame c imageURL prompt opts tr1,
   getTaskStatusT_frame c taskID tr2,
   sendChatRequestT_frame oc req tr3,
   chatCompletionT_frame oc messages ropts tr3,
   generateTextT_frame oc userPrompt systemPrompt ropts tr3⟩

/-! ## Claim C10 -/

/-- Claim C10: a successfully parsed text-completion response with an
empty choices list makes GenerateText return the error
"no response from API" together with an empty string (no out-of-bounds
access, no nil error with empty text); with a non-empty choices list it
returns the first choice's message content and no error. -/
theorem c10_empty_choices_guard (c : OpenAIClient) (prompt systemPrompt : String)
    (ropts : List (ChatCompletionRequest → ChatCompletionRequest))
    (body : String) (resp : ChatCompletionResponse) :
    (resp.Choices = [] →
      (generateTextT c prompt systemPrompt ropts
        (fun _ _ => (200, body, none, some resp))).1 = ("", some "no response from API"))
    ∧ (∀ choice rest, resp.Choices = choice :: rest →
      (generateTextT c prompt systemPrompt ropts
        (fun _ _ => (200, body, none, some resp))).1 = (choice.Message.Content, none)) := by
  constructor
  · intro h
    simp [generateTextT, chatCompletionT, sendChatRequestT, generateTextHandle, h]
  · intro choice rest h
    simp [generateTextT, chatCompletionT, sendChatRequestT, generateTextHandle, h]

/-- Witness for c10_empty_choices_guard: a parsed response with no choices
yields the "no response from API" error and the empty string, and one with
a single choice yields that choice's content. -/
theorem c10_witness :
    (generateTextT ⟨"https://api.example.com", "k", "gpt", "/v1/chat/completions", 600⟩
        "hi" "" [] (fun _ _ => (200, "ok", none,
          some ⟨"id1", "chat.completion", 0, "gpt", [], ⟨0, 0, 0⟩⟩))).1
      = ("", some "no response from API")
    ∧ (generateTextT ⟨"https://api.example.com", "k", "gpt", "/v1/chat/completions", 600⟩
        "hi" "" [] (fun _ _ => (200, "ok", none,
          some ⟨"id1", "chat.completion", 0, "gpt",
            [⟨0, ⟨"assistant", "hello"⟩, "stop"⟩], ⟨0, 0, 0⟩⟩))).1
      = ("hello", none) :=
  ⟨(c10_empty_choices_guard _ "hi" "" [] "ok"
      ⟨"id1", "chat.completion", 0, "gpt", [], ⟨0, 0, 0⟩⟩).1 rfl,
   (c10_empty_choices_guard _ "hi" "" [] "ok"
      ⟨"id1", "chat.completion", 0, "gpt",
        [⟨0, ⟨"assistant", "hello"⟩, "stop"⟩], ⟨0, 0, 0⟩⟩).2
      ⟨0, ⟨"assistant", "hello"⟩, "stop"⟩ [] rfl⟩

/-! ## Claim C7 -/

/-- Helper: dropping while not equal to `o` over a prefix free of `o`
stops exactly at the first `o`. -/
theorem dropWhile_until (o : Char) (a rest : List Char) (ha : o ∉ a) :
    (a ++ o :: rest).dropWhile (fun x => x != o) = o :: rest := by
  induction a with
  | nil => simp [List.dropWhile_cons]
  | cons x xs ih =>
    simp only [List.mem_cons, not_or] at ha
    obtain ⟨h1, h2⟩ := ha
    simp [List.dropWhile_cons, bne_iff_ne, Ne.symm h1, ih h2]

/-- Helper: with no `o` in the prose before and no `c` in the prose after,
extraction from the first `o` through the last `c` recovers exactly the
enclosed candidate. -/
theorem extractBetween_exact (o c : Char) (p1 mid p2 : List Char)
    (hp1 : o ∉ p1) (hp2 : c ∉ p2) :
    extractBetween o c (p1 ++ (o :: mid ++ [c]) ++ p2) = some (o :: mid ++ [c]) := by
  unfold extractBetween
  have h1 : (p1 ++ (o :: mid ++ [c]) ++ p2).dropWhile (fun x => x != o)
      = o :: (mid ++ [c] ++ p2) := by
    have h := dropWhile_until o p1 ((mid ++ [c]) ++ p2) hp1
    simpa using h
  rw [h1]
  dsimp only
  have hrev : (o :: (mid ++ [c] ++ p2)).reverse
      = p2.reverse ++ c :: (mid.reverse ++ [o]) := by
    simp
  rw [hrev, dropWhile_until c p2.reverse (mid.reverse ++ [o]) (by simpa using hp2)]
  simp

/-- Claim C7 (amended): when the fence-stripped, trimmed input splits as
prose, then a brace-delimited candidate, then prose, where the leading
prose contains no opening brace, the trailing prose contains no closing
brace, the whole text does not parse directly, and the candidate parses
as the JSON value `v`, then decode returns exactly `v` — the value a
direct parse of the embedded JSON gives.  (Prose containing braces can
defeat the decoder; see the counterexample.) -/
theorem c7_decode_recovers (raw : String) (p1 mid p2 : List Char) (v : Json)
    (hstrip : stripFence (trimW raw.data) = p1 ++ (braceOpen :: mid ++ [braceClose]) ++ p2)
    (hp1 : braceOpen ∉ p1) (hp2 : braceClose ∉ p2)
    (hdirect : fullParseL (p1 ++ (braceOpen :: mid ++ [braceClose]) ++ p2) = none)
    (hparse : fullParseL (braceOpen :: mid ++ [braceClose]) = some v) :
    decode raw = Except.ok v := by
  unfold decode
  rw [hstrip]
  simp only [hdirect]
  unfold tryParseSub
  rw [extractBetween_exact braceOpen braceClose p1 mid p2 hp1 hp2]
  simp only [hparse]

/-- Counterexample to claim C7 as stated: c7Raw is a valid JSON object
prefixed with prose (prose "x\x7by " ++ JSON), the embedded JSON parses
directly, yet decode fails with a DecodeError instead of returning the
parsed value — prose containing a brace defeats the extraction step. -/
theorem c7_counterexample :
    c7Raw = "x\x7by " ++ "\x7b\"a\":1\x7d"
    ∧ fullParse "\x7b\"a\":1\x7d" = some (Json.obj [("a", Json.num 1)])
    ∧ decode c7Raw = Except.error ("DecodeError: " ++ c7Raw) :=
  ⟨rfl, rfl, rfl⟩

/-- Witness for c7_decode_recovers: prose-wrapped JSON object recovered
exactly, via the theorem applied at concrete prose and candidate. -/
theorem c7_witness :
    fullParse "\x7b\"a\":1\x7d" = some (Json.obj [("a", Json.num 1)])
    ∧ decode "Result: \x7b\"a\":1\x7d done" = Except.ok (Json.obj [("a", Json.num 1)]) :=
  ⟨rfl,
   c7_decode_recovers "Result: \x7b\"a\":1\x7d done"
     "Result: ".data "\"a\":1".data " done".data
     (Json.obj [("a", Json.num 1)])
     rfl (by decide) (by decide) rfl rfl⟩
